import Mathlib

/-!
Shallow embedding of the travel-planner repository's tool layer.

Sources embedded here:
  * getWeatherCondition, calculateDaysBetween, generateFallbackWeather
    (helpers file, given as src/unnamed/part_001);
  * weatherForecastTool.execute, budgetCalculatorTool.execute,
    attractionsFinderTool.execute
    (src/src/mastra/agents/travel-planner-agent/travel-planner-tools.ts).

Modelling conventions:
  * JS numbers are rationals. The repository only ever adds, multiplies,
    divides and rounds budget-sized quantities, where double arithmetic is
    exact or the spec itself speaks in exact arithmetic. One knowing
    deviation: division by zero is 0 here where JS produces Infinity/NaN
    (it occurs only in the summary string an empty forecast produces, and
    no theorem below relies on that summary).
  * Calendar dates (YYYY-MM-DD strings parsed by the JS Date constructor
    at UTC midnight) are whole epoch-day numbers; getTime scales them to
    milliseconds exactly as Date.getTime does for such strings.
  * Math.random() draws are an oracle (RandomSource): one rational per
    call site and day index, so every theorem quantifies over all draws.
  * fetch/json outcomes are an environment value per call: a thrown
    error, a non-2xx response, or a parsed body. Bodies carry Option
    fields where the runtime JSON may lack the field the TS type claims.
  * String.prototype.toLowerCase / includes / trim / split(",")[0] are
    re-implemented structurally over the character list so that the
    kernel can evaluate them on concrete inputs.
-/

namespace TravelPlanner

/-- Math.round for JS numbers: round half toward positive infinity. -/
def jsRound (q : ℚ) : Int := Int.floor (q + 1 / 2)

/-- The JS expression v || d for a number v that may be absent: the default
replaces an absent value and also a falsy present one, i.e. 0. (NaN, the
other falsy number, has no rational representation and is not modelled.) -/
def jsOrQ (v : Option ℚ) (d : ℚ) : ℚ :=
  match v with
  | some x => if x = 0 then d else x
  | none => d

/-- The JS expression v || d for a string that may be absent: the default
replaces an absent value and the empty (falsy) string. -/
def jsOrStr (v : Option String) (d : String) : String :=
  match v with
  | some s => if s = "" then d else s
  | none => d

/-- Character-list model of String.prototype.toLowerCase (the repository
only lowercases ASCII catalog strings and interest tags). -/
def jsToLower (s : String) : String := String.mk (s.data.map Char.toLower)

def charsStartWith : List Char → List Char → Bool
  | _, [] => true
  | [], _ :: _ => false
  | a :: as, b :: bs => a == b && charsStartWith as bs

def charsContain (s sub : List Char) : Bool :=
  (List.range (s.length + 1)).any (fun i => charsStartWith (s.drop i) sub)

/-- String.prototype.includes: sub occurs contiguously in s. -/
def jsIncludes (s sub : String) : Bool := charsContain s.data sub.data

/-- String.prototype.trim: drop leading and trailing whitespace. -/
def jsTrim (s : String) : String :=
  String.mk (((s.data.dropWhile Char.isWhitespace).reverse.dropWhile Char.isWhitespace).reverse)

/-- s.split(",")[0]: the characters before the first comma (the whole
string when it has no comma — split always yields a first segment). -/
def jsHeadSegment (s : String) : String :=
  String.mk (s.data.takeWhile (fun c => !(c == ',')))

/-- s.split(",")[0].trim(), the destination normalization used by the
fallback paths. -/
def truncAtComma (s : String) : String := jsTrim (jsHeadSegment s)

/-- getWeatherCondition (helpers file, lines 1-23): fixed table from the
weather code to a condition phrase, with a record lookup whose miss (and
only its miss: every mapped phrase is a truthy non-empty string) yields
"Unknown". The Record<number, string> lookup is an equality chain here. -/
def getWeatherCondition (code : ℚ) : String :=
  if code = 0 then "Clear sky"
  else if code = 1 then "Mainly clear"
  else if code = 2 then "Partly cloudy"
  else if code = 3 then "Overcast"
  else if code = 45 then "Foggy"
  else if code = 48 then "Depositing rime fog"
  else if code = 51 then "Light drizzle"
  else if code = 53 then "Moderate drizzle"
  else if code = 55 then "Dense drizzle"
  else if code = 61 then "Slight rain"
  else if code = 63 then "Moderate rain"
  else if code = 65 then "Heavy rain"
  else if code = 71 then "Slight snow fall"
  else if code = 73 then "Moderate snow fall"
  else if code = 75 then "Heavy snow fall"
  else if code = 95 then "Thunderstorm"
  else if code = 96 then "Thunderstorm with slight hail"
  else if code = 99 then "Thunderstorm with heavy hail"
  else "Unknown"

/-- The 18 codes the table maps. -/
def mappedWeatherCodes : List ℚ :=
  [0, 1, 2, 3, 45, 48, 51, 53, 55, 61, 63, 65, 71, 73, 75, 95, 96, 99]

/-- Milliseconds per day, 1000 * 60 * 60 * 24. -/
def msPerDay : ℕ := 1000 * 60 * 60 * 24

/-- Date.getTime for a YYYY-MM-DD date modelled as an epoch-day number. -/
def getTime (day : Int) : Int := day * (msPerDay : Int)

/-- Nat ceiling division, the value of Math.ceil (a / b) for naturals. -/
def natCeilDiv (a b : ℕ) : ℕ := (a + (b - 1)) / b

/-- calculateDaysBetween (helpers file, lines 25-30):
Math.ceil (|end.getTime() - start.getTime()| / msPerDay). -/
def calculateDaysBetween (startDay endDay : Int) : ℕ :=
  natCeilDiv (getTime endDay - getTime startDay).natAbs msPerDay

structure DailyForecast where
  date : Int
  condition : String
  maxTemp : Int
  minTemp : Int
  precipitationChance : ℚ
  weatherCode : ℚ
deriving DecidableEq

structure WeatherForecastResult where
  destination : String
  country : String
  forecast : List DailyForecast
  summary : String
deriving DecidableEq

/-- The Math.random() draws generateFallbackWeather makes: one value in
[0, 1) per day index for each of the three call sites. Theorems quantify
over arbitrary rational draws, which covers every actual run. -/
structure RandomSource where
  maxDraw : ℕ → ℚ
  minDraw : ℕ → ℚ
  precDraw : ℕ → ℚ

/-- generateFallbackWeather (helpers file, lines 32-66): a synthetic
forecast of calculateDaysBetween entries; day i is dated start + i, its
condition and weatherCode cycle with i % 3, its temperatures and
precipitation come from the random draws. -/
def generateFallbackWeather (rng : RandomSource) (destination : String)
    (startDay endDay : Int) : WeatherForecastResult :=
  let days := calculateDaysBetween startDay endDay
  let forecast := (List.range days).map (fun (i : ℕ) =>
    { date := startDay + (i : Int)
      condition :=
        if i % 3 = 0 then "Partly cloudy"
        else if i % 3 = 1 then "Mainly clear"
        else "Clear sky"
      maxTemp := 25 + Int.floor (rng.maxDraw i * 10)
      minTemp := 18 + Int.floor (rng.minDraw i * 7)
      precipitationChance := (Int.floor (rng.precDraw i * 40) : ℚ)
      weatherCode := if i % 3 = 0 then 2 else if i % 3 = 1 then 1 else 0
      : DailyForecast })
  { destination := truncAtComma destination
    country := "Unknown"
    forecast := forecast
    summary := toString days ++ " day forecast for " ++ destination ++
      ": Mixed conditions expected. Plan for both indoor and outdoor activities." }

/-- One geocoding result entry (types/index.ts GeocodingResponse). The TS
type declares country as a required string, but the runtime guards it
with country || "Unknown", so it is Option here. -/
structure GeoEntry where
  latitude : ℚ
  longitude : ℚ
  name : String
  country : Option String
deriving DecidableEq

/-- A parsed geocoding body; results is Option because the runtime guards
results?.[0] against a malformed body. -/
structure GeocodingBody where
  results : Option (List GeoEntry)
deriving DecidableEq

/-- The outcome of one fetch + json() pair: a thrown error (network
failure or unparseable body), a non-2xx response, or a parsed body. -/
inductive FetchResult (β : Type) where
  | throws
  | notOk
  | ok (body : β)
deriving DecidableEq

/-- The daily block of a weather response. time is none when the field is
absent or not an array; the parallel value arrays are indexed per day and
an index can be out of range. -/
structure DailyBlock where
  time : Option (List Int)
  weathercode : Option (List ℚ)
  temperature_2m_max : Option (List ℚ)
  temperature_2m_min : Option (List ℚ)
  precipitation_probability_max : Option (List ℚ)
deriving DecidableEq

/-- A parsed weather body: an optional daily block and whether a truthy
current object is present. -/
structure WeatherBody where
  daily : Option DailyBlock
  current : Bool
deriving DecidableEq

/-- Everything external a single execute call observes: the geocoding
call outcome, the weather attempt outcomes in order (three attempts in a
real run), and the random draws of the fallback generator. -/
structure WeatherEnv where
  geocoding : FetchResult GeocodingBody
  attempts : List (FetchResult WeatherBody)
  rng : RandomSource

/-- rawData.daily || rawData.current: the loop accepts a body holding a
daily or a current object. -/
def weatherBodyAccepted (b : WeatherBody) : Bool := b.daily.isSome || b.current

/-- The retry loop (tools file, lines 88-126): skip thrown and non-2xx
attempts, stop at the first accepted body. -/
def firstAccepted : List (FetchResult WeatherBody) → Option WeatherBody
  | [] => none
  | FetchResult.throws :: rest => firstAccepted rest
  | FetchResult.notOk :: rest => firstAccepted rest
  | FetchResult.ok b :: rest =>
      if weatherBodyAccepted b then some b else firstAccepted rest

/-- daily.<field>?.[index] for one of the parallel arrays. -/
def idxVal (arr : Option (List ℚ)) (i : ℕ) : Option ℚ :=
  match arr with
  | some l => l.get? i
  | none => none

/-- One mapped DailyForecast (tools file, lines 141-155): each field is
value || default on the matching parallel array. -/
def buildForecastEntry (db : DailyBlock) (i : ℕ) (date : Int) : DailyForecast :=
  { date := date
    condition := getWeatherCondition (jsOrQ (idxVal db.weathercode i) 1)
    maxTemp := jsRound (jsOrQ (idxVal db.temperature_2m_max i) 25)
    minTemp := jsRound (jsOrQ (idxVal db.temperature_2m_min i) 18)
    precipitationChance := jsOrQ (idxVal db.precipitation_probability_max i) 20
    weatherCode := jsOrQ (idxVal db.weathercode i) 1 }

/-- Steps 4-5 on an accepted daily block (tools file, lines 141-181): map
daily.time to forecast entries and build the summary. For an empty time
array the JS average is NaN and the summary string shows NaN; here the
division yields 0 — no theorem below reads that summary. -/
def processDaily (name : String) (country : Option String) (db : DailyBlock)
    (times : List Int) : WeatherForecastResult :=
  let forecast := times.enum.map (fun p => buildForecastEntry db p.1 p.2)
  let avgTemp :=
    (forecast.foldl (fun s d => s + (((d.maxTemp : ℚ) + (d.minTemp : ℚ)) / 2)) 0) /
      (forecast.length : ℚ)
  let rainyDays := (forecast.filter (fun d => decide (50 < d.precipitationChance))).length
  { destination := name
    country := jsOrStr country "Unknown"
    forecast := forecast
    summary := toString forecast.length ++ " day forecast for " ++ name ++
      ": Average temperature " ++ toString (jsRound avgTemp) ++ "°C, " ++
      toString rainyDays ++ " potentially rainy days." }

/-- The try block of weatherForecastTool.execute (tools file, lines
39-181). Except.error models an exception escaping the block: the only
such sites in the model are the geocoding fetch/json (a thrown weather
attempt is swallowed by the inner per-attempt handler and the loop
continues). Every other path returns normally. -/
def weatherTryBody (env : WeatherEnv) (destination : String)
    (startDay endDay : Int) : Except Unit WeatherForecastResult :=
  match env.geocoding with
  | FetchResult.throws => Except.error ()
  | FetchResult.notOk =>
      Except.ok (generateFallbackWeather env.rng destination startDay endDay)
  | FetchResult.ok gb =>
    match gb.results with
    | none => Except.ok (generateFallbackWeather env.rng destination startDay endDay)
    | some [] => Except.ok (generateFallbackWeather env.rng destination startDay endDay)
    | some (entry :: _) =>
      match firstAccepted env.attempts with
      | none => Except.ok (generateFallbackWeather env.rng entry.name startDay endDay)
      | some wb =>
        match wb.daily with
        | none => Except.ok (generateFallbackWeather env.rng entry.name startDay endDay)
        | some db =>
          match db.time with
          | none => Except.ok (generateFallbackWeather env.rng entry.name startDay endDay)
          | some times => Except.ok (processDaily entry.name entry.country db times)

/-- weatherForecastTool.execute (tools file, lines 31-190): the try block
wrapped in the catch that falls back using the original destination. -/
def weatherForecastExecute (env : WeatherEnv) (destination : String)
    (startDay endDay : Int) : Except Unit WeatherForecastResult :=
  match weatherTryBody env destination startDay endDay with
  | Except.ok r => Except.ok r
  | Except.error _ =>
      Except.ok (generateFallbackWeather env.rng destination startDay endDay)

/-- The schema-validated travelStyle enum of the budget tool. -/
inductive TravelStyle where
  | budget
  | midRange
  | luxury
deriving DecidableEq

def styleName : TravelStyle → String
  | TravelStyle.budget => "budget"
  | TravelStyle.midRange => "mid-range"
  | TravelStyle.luxury => "luxury"

/-- One row of the allocation percentage table. -/
structure Allocation where
  accommodation : ℚ
  food : ℚ
  transport : ℚ
  activities : ℚ
  misc : ℚ
deriving DecidableEq

/-- The allocations table (tools file, lines 382-406). The schema admits
only the three enum values, so the || "mid-range" default of line 406 is
unreachable and the lookup is total. -/
def allocationFor : TravelStyle → Allocation
  | TravelStyle.budget => { accommodation := 35, food := 30, transport := 15, activities := 15, misc := 5 }
  | TravelStyle.midRange => { accommodation := 40, food := 25, transport := 15, activities := 15, misc := 5 }
  | TravelStyle.luxury => { accommodation := 45, food := 20, transport := 15, activities := 15, misc := 5 }

structure CategoryPlan where
  percentage : ℚ
  total : Int
  daily : Int
deriving DecidableEq

/-- One breakdown category: Math.round of the percentage applied to the
total and to the (unrounded) daily budget. -/
def categoryPlan (totalBudget dailyBudget pct : ℚ) : CategoryPlan :=
  { percentage := pct
    total := jsRound (totalBudget * pct / 100)
    daily := jsRound (dailyBudget * pct / 100) }

structure BudgetBreakdown where
  accommodation : CategoryPlan
  food : CategoryPlan
  transport : CategoryPlan
  activities : CategoryPlan
  miscellaneous : CategoryPlan
deriving DecidableEq

structure BudgetPlan where
  totalBudget : ℚ
  dailyBudget : Int
  breakdown : BudgetBreakdown
  recommendations : List String
deriving DecidableEq

/-- budgetCalculatorTool.execute (tools file, lines 371-473): pure
computation. travelers and destination are accepted and unused, as in the
source. Note the returned dailyBudget field is Math.round of the internal
unrounded daily budget (line 469), while the breakdown and the
recommendation thresholds use the unrounded value. -/
def budgetCalculatorExecute (totalBudget duration travelers : ℚ)
    (travelStyle : TravelStyle) (destination : String) : BudgetPlan :=
  let dailyBudget := totalBudget / duration
  let allocation := allocationFor travelStyle
  let breakdown : BudgetBreakdown :=
    { accommodation := categoryPlan totalBudget dailyBudget allocation.accommodation
      food := categoryPlan totalBudget dailyBudget allocation.food
      transport := categoryPlan totalBudget dailyBudget allocation.transport
      activities := categoryPlan totalBudget dailyBudget allocation.activities
      miscellaneous := categoryPlan totalBudget dailyBudget allocation.misc }
  let recommendations :=
    ["Based on your " ++ styleName travelStyle ++ " travel style and $" ++
        toString (jsRound dailyBudget) ++ "/day budget",
      "Book accommodations in advance for better rates and availability",
      "Mix restaurant meals with local street food for authentic experiences",
      "Use public transport when possible to save money and experience local life",
      "Look for free walking tours and attractions to maximize your budget"]
  let recommendations :=
    if dailyBudget < 50 then
      recommendations ++
        ["Consider hostels or budget guesthouses for accommodation",
          "Cook some meals if kitchen facilities are available"]
    else if 200 < dailyBudget then
      recommendations ++
        ["Consider boutique hotels or luxury resorts",
          "Budget for unique experiences and private guided tours"]
    else recommendations
  { totalBudget := totalBudget
    dailyBudget := jsRound dailyBudget
    breakdown := breakdown
    recommendations := recommendations }

structure Attraction where
  name : String
  type : String
  description : String
  estimatedCost : ℚ
  timeNeeded : String
  bestTimeToVisit : String
  rating : ℚ
  category : String
deriving DecidableEq

/-- The fixed 8-entry catalog (tools file, lines 513-601). -/
def allAttractions : List Attraction :=
  [{ name := "Historic Cathedral or Temple", type := "Cultural Site"
     description := "Beautiful architecture with rich history and guided tours available"
     estimatedCost := 15, timeNeeded := "2-3 hours", bestTimeToVisit := "Morning"
     rating := 45 / 10, category := "culture" },
   { name := "Local Food Market", type := "Culinary Experience"
     description := "Authentic local cuisine and fresh ingredients from regional vendors"
     estimatedCost := 25, timeNeeded := "2-4 hours", bestTimeToVisit := "Late morning"
     rating := 47 / 10, category := "food" },
   { name := "Nature Park or Garden", type := "Outdoor Activity"
     description := "Scenic walking trails with local flora and peaceful atmosphere"
     estimatedCost := 10, timeNeeded := "Half day", bestTimeToVisit := "Early morning"
     rating := 43 / 10, category := "nature" },
   { name := "Art Museum or Gallery", type := "Cultural Site"
     description := "Contemporary and classical art collections with rotating exhibitions"
     estimatedCost := 20, timeNeeded := "3-4 hours", bestTimeToVisit := "Afternoon"
     rating := 42 / 10, category := "art" },
   { name := "Adventure Activity Center", type := "Adventure Activity"
     description := "Outdoor adventures like hiking, climbing, or water sports"
     estimatedCost := 45, timeNeeded := "Full day", bestTimeToVisit := "Morning"
     rating := 46 / 10, category := "adventure" },
   { name := "Technology Museum", type := "Educational Site"
     description := "Interactive exhibits showcasing modern technology and innovation"
     estimatedCost := 18, timeNeeded := "3-4 hours", bestTimeToVisit := "Afternoon"
     rating := 44 / 10, category := "technology" },
   { name := "Shopping District", type := "Shopping Experience"
     description := "Local shops, boutiques, and markets for unique souvenirs"
     estimatedCost := 30, timeNeeded := "Half day", bestTimeToVisit := "Afternoon"
     rating := 41 / 10, category := "shopping" },
   { name := "Historical Walking Tour", type := "Cultural Experience"
     description := "Guided tour through historic neighborhoods with local stories"
     estimatedCost := 20, timeNeeded := "3 hours", bestTimeToVisit := "Morning"
     rating := 48 / 10, category := "history" }]

/-- The filter predicate (tools file, lines 604-614): some interest is a
case-insensitive substring of category, type or name, OR the cost is
within twice the per-day activities budget. -/
def attractionMatches (interests : List String) (budget : ℚ) (a : Attraction) : Bool :=
  (interests.any (fun interest =>
    jsIncludes (jsToLower a.category) (jsToLower interest) ||
    jsIncludes (jsToLower a.type) (jsToLower interest) ||
    jsIncludes (jsToLower a.name) (jsToLower interest))) ||
  decide (a.estimatedCost ≤ budget * 2)

def matchedAttractions (interests : List String) (budget : ℚ) : List Attraction :=
  allAttractions.filter (attractionMatches interests budget)

/-- Math.min(duration * 2, allAttractions.length). -/
def minAttractionsFor (duration : ℕ) : ℕ :=
  Nat.min (duration * 2) allAttractions.length

/-- The padded final list (tools file, lines 617-626): the matches, and
when they are fewer than the minimum, unmatched catalog entries in
catalog order up to the minimum. -/
def finalAttractions (interests : List String) (duration : ℕ) (budget : ℚ) :
    List Attraction :=
  let matched := matchedAttractions interests budget
  if minAttractionsFor duration ≤ matched.length then matched
  else
    matched ++
      (allAttractions.filter (fun a => !(decide (a ∈ matched)))).take
        (minAttractionsFor duration - matched.length)

/-- [...new Set(xs)]: dedup preserving first-occurrence order. -/
def jsSetDedup (l : List String) : List String :=
  l.foldl (fun acc s => if s ∈ acc then acc else acc ++ [s]) []

structure AttractionsResult where
  destination : String
  attractions : List Attraction
  totalAttractions : ℕ
  categories : List String
deriving DecidableEq

/-- attractionsFinderTool.execute (tools file, lines 503-640): pure
computation over the fixed catalog. duration is the whole number of trip
days the schema intends. -/
def attractionsFinderExecute (destination : String) (interests : List String)
    (duration : ℕ) (budget : ℚ) : AttractionsResult :=
  let final := finalAttractions interests duration budget
  { destination := truncAtComma destination
    attractions := final
    totalAttractions := final.length
    categories := jsSetDedup (final.map (fun a => a.category)) }

/-! Concrete environments the witness and counterexample theorems use. -/

/-- A random source drawing 0 at every call. -/
def rng0 : RandomSource :=
  { maxDraw := fun _ => 0, minDraw := fun _ => 0, precDraw := fun _ => 0 }

/-- Geocoding answers non-2xx; no weather attempt happens. -/
def envC1 : WeatherEnv :=
  { geocoding := FetchResult.notOk, attempts := [], rng := rng0 }

/-- Geocoding throws (network error or unparseable body). -/
def envGeoThrows : WeatherEnv :=
  { geocoding := FetchResult.throws, attempts := [], rng := rng0 }

def geoEntrySpringfield : GeoEntry :=
  { latitude := 0, longitude := 0, name := "Springfield", country := some "United States" }

def dbLive : DailyBlock :=
  { time := some [5], weathercode := some [61], temperature_2m_max := some [20],
    temperature_2m_min := some [10], precipitation_probability_max := some [80] }

/-- Geocoding succeeds with canonical name Springfield; the first weather
attempt throws, the second returns a full daily body. -/
def envThrowThenLive : WeatherEnv :=
  { geocoding := FetchResult.ok { results := some [geoEntrySpringfield] }
    attempts := [FetchResult.throws,
      FetchResult.ok { daily := some dbLive, current := false },
      FetchResult.notOk]
    rng := rng0 }

def geoEntryOslo : GeoEntry :=
  { latitude := 0, longitude := 0, name := "Oslo", country := some "Norway" }

/-- A daily block whose per-day values are all present and all 0. -/
def dbZeroCode : DailyBlock :=
  { time := some [100], weathercode := some [0], temperature_2m_max := some [0],
    temperature_2m_min := some [0], precipitation_probability_max := some [0] }

def envZeroCode : WeatherEnv :=
  { geocoding := FetchResult.ok { results := some [geoEntryOslo] }
    attempts := [FetchResult.ok { daily := some dbZeroCode, current := false }]
    rng := rng0 }

def geoEntryKyoto : GeoEntry :=
  { latitude := 0, longitude := 0, name := "Kyoto", country := some "Japan" }

/-- A daily block whose time field is present but an empty array. -/
def dbEmptyTime : DailyBlock :=
  { time := some [], weathercode := none, temperature_2m_max := none,
    temperature_2m_min := none, precipitation_probability_max := none }

def envEmptyTime : WeatherEnv :=
  { geocoding := FetchResult.ok { results := some [geoEntryKyoto] }
    attempts := [FetchResult.ok { daily := some dbEmptyTime, current := false }]
    rng := rng0 }

/-! Supporting lemmas. -/

theorem natCeilDiv_mul (n m : ℕ) (hm : 0 < m) : natCeilDiv (n * m) m = n := by
  unfold natCeilDiv
  rw [Nat.add_comm, Nat.mul_comm, Nat.add_mul_div_left _ _ hm,
    Nat.div_eq_of_lt (Nat.sub_lt hm Nat.one_pos), Nat.zero_add]

theorem calculateDaysBetween_eq_natAbs (s e : Int) :
    calculateDaysBetween s e = (e - s).natAbs := by
  unfold calculateDaysBetween getTime
  have h : e * ((msPerDay : ℕ) : Int) - s * ((msPerDay : ℕ) : Int) =
      (e - s) * ((msPerDay : ℕ) : Int) := by ring
  rw [h, Int.natAbs_mul, Int.natAbs_ofNat]
  exact natCeilDiv_mul _ _ (by decide)

theorem jsRound_intCast (n : ℤ) : jsRound ((n : ℤ) : ℚ) = n := by
  unfold jsRound
  rw [Int.floor_eq_iff]
  constructor
  · norm_num
  · norm_num

theorem length_filter_comp {α : Type} (l : List α) (p : α → Bool) :
    (l.filter p).length + (l.filter (fun a => !(p a))).length = l.length := by
  induction l with
  | nil => rfl
  | cons a as ih => cases hpa : p a <;> simp [List.filter_cons, hpa] <;> omega

theorem filter_not_mem_matched (interests : List String) (budget : ℚ) :
    allAttractions.filter (fun a => !(decide (a ∈ matchedAttractions interests budget))) =
      allAttractions.filter (fun a => !(attractionMatches interests budget a)) := by
  apply List.filter_congr
  intro a ha
  simp [matchedAttractions, List.mem_filter, ha]

/-! The claims. -/

/-- C9: getWeatherCondition is a pure total function; each of the 18
table codes maps to its fixed phrase, and every other code (in
particular every other integer) maps to "Unknown". -/
theorem C9_weather_condition_table :
    (getWeatherCondition 0 = "Clear sky" ∧ getWeatherCondition 1 = "Mainly clear" ∧
     getWeatherCondition 2 = "Partly cloudy" ∧ getWeatherCondition 3 = "Overcast" ∧
     getWeatherCondition 45 = "Foggy" ∧ getWeatherCondition 48 = "Depositing rime fog" ∧
     getWeatherCondition 51 = "Light drizzle" ∧ getWeatherCondition 53 = "Moderate drizzle" ∧
     getWeatherCondition 55 = "Dense drizzle" ∧ getWeatherCondition 61 = "Slight rain" ∧
     getWeatherCondition 63 = "Moderate rain" ∧ getWeatherCondition 65 = "Heavy rain" ∧
     getWeatherCondition 71 = "Slight snow fall" ∧ getWeatherCondition 73 = "Moderate snow fall" ∧
     getWeatherCondition 75 = "Heavy snow fall" ∧ getWeatherCondition 95 = "Thunderstorm" ∧
     getWeatherCondition 96 = "Thunderstorm with slight hail" ∧
     getWeatherCondition 99 = "Thunderstorm with heavy hail") ∧
    (∀ code : ℚ, code ∉ mappedWeatherCodes → getWeatherCondition code = "Unknown") := by
  constructor
  · exact ⟨rfl, rfl, rfl, rfl, rfl, rfl, rfl, rfl, rfl, rfl, rfl, rfl, rfl, rfl, rfl, rfl,
      rfl, rfl⟩
  · intro code h
    simp only [mappedWeatherCodes, List.mem_cons, List.not_mem_nil, or_false, not_or] at h
    obtain ⟨h0, h1, h2, h3, h45, h48, h51, h53, h55, h61, h63, h65, h71, h73, h75,
      h95, h96, h99⟩ := h
    simp only [getWeatherCondition, if_neg h0, if_neg h1, if_neg h2, if_neg h3, if_neg h45,
      if_neg h48, if_neg h51, if_neg h53, if_neg h55, if_neg h61, if_neg h63, if_neg h65,
      if_neg h71, if_neg h73, if_neg h75, if_neg h95, if_neg h96, if_neg h99]

/-- C9 witness: 7 is not a mapped code and yields "Unknown". -/
theorem C9_weather_condition_table_witness :
    ((7 : ℚ) ∉ mappedWeatherCodes) ∧ getWeatherCondition 7 = "Unknown" :=
  ⟨by decide, C9_weather_condition_table.2 7 (by decide)⟩

/-- C8: for any draws, destination and (possibly reversed) date range,
the fallback forecast has exactly calculateDaysBetween entries — the
absolute day difference, via the ceiling of the millisecond quotient —
and entry i is dated start + i with condition cycling Partly cloudy /
Mainly clear / Clear sky and weatherCode cycling 2 / 1 / 0 by i mod 3. -/
theorem C8_fallback_forecast_shape (rng : RandomSource) (destination : String) (s e : Int) :
    (generateFallbackWeather rng destination s e).forecast.length = calculateDaysBetween s e ∧
    calculateDaysBetween s e = (e - s).natAbs ∧
    (∀ i : ℕ, i < (generateFallbackWeather rng destination s e).forecast.length →
      ((generateFallbackWeather rng destination s e).forecast.get? i).map (fun f => f.date) =
        some (s + (i : Int)) ∧
      ((generateFallbackWeather rng destination s e).forecast.get? i).map (fun f => f.condition) =
        some (if i % 3 = 0 then "Partly cloudy"
          else if i % 3 = 1 then "Mainly clear" else "Clear sky") ∧
      ((generateFallbackWeather rng destination s e).forecast.get? i).map (fun f => f.weatherCode) =
        some (if i % 3 = 0 then 2 else if i % 3 = 1 then 1 else 0)) := by
  refine ⟨by simp [generateFallbackWeather], calculateDaysBetween_eq_natAbs s e, ?_⟩
  intro i hi
  have hlen : i < calculateDaysBetween s e := by
    simpa [generateFallbackWeather] using hi
  refine ⟨?_, ?_, ?_⟩ <;>
    simp [generateFallbackWeather, List.getElem?_map, List.getElem?_range hlen]

/-- C8 witness: three days backwards from day 5 to day 2 — three entries,
dated 5, 6, 7, with the stated condition and code cycle at index 0. -/
theorem C8_fallback_forecast_shape_witness :
    (generateFallbackWeather rng0 "Paris, France" 5 2).forecast.length =
      calculateDaysBetween 5 2 ∧
    calculateDaysBetween 5 2 = ((2 : Int) - 5).natAbs ∧
    ((generateFallbackWeather rng0 "Paris, France" 5 2).forecast.get? 0).map (fun f => f.date) =
      some 5 ∧
    ((generateFallbackWeather rng0 "Paris, France" 5 2).forecast.get? 0).map
        (fun f => f.condition) = some "Partly cloudy" ∧
    ((generateFallbackWeather rng0 "Paris, France" 5 2).forecast.get? 0).map
        (fun f => f.weatherCode) = some 2 := by
  have h := C8_fallback_forecast_shape rng0 "Paris, France" 5 2
  have h0 := h.2.2 0 (by decide)
  exact ⟨h.1, h.2.1, h0.1, h0.2.1, h0.2.2⟩

/-- C1: when the geocoding call fails — non-2xx, or a 2xx body with an
empty result list — the tool returns the fallback output, whose forecast
length is the absolute day span, whose destination is the input truncated
before the first comma and trimmed, and whose country is "Unknown". -/
theorem C1_geocoding_failure_fallback (env : WeatherEnv) (destination : String) (s e : Int)
    (h : env.geocoding = FetchResult.notOk ∨
         env.geocoding = FetchResult.ok { results := some [] }) :
    weatherForecastExecute env destination s e =
      Except.ok (generateFallbackWeather env.rng destination s e) ∧
    (generateFallbackWeather env.rng destination s e).forecast.length = (e - s).natAbs ∧
    (generateFallbackWeather env.rng destination s e).destination = truncAtComma destination ∧
    (generateFallbackWeather env.rng destination s e).country = "Unknown" := by
  refine ⟨?_, ?_, rfl, rfl⟩
  · rcases h with h | h <;> simp [weatherForecastExecute, weatherTryBody, h]
  · simp [generateFallbackWeather, calculateDaysBetween_eq_natAbs]

/-- C1 witness: a non-2xx geocoding response for "Nowhereland" over a
three-day span. -/
theorem C1_geocoding_failure_fallback_witness :
    weatherForecastExecute envC1 "Nowhereland" 20 23 =
      Except.ok (generateFallbackWeather envC1.rng "Nowhereland" 20 23) ∧
    (generateFallbackWeather envC1.rng "Nowhereland" 20 23).forecast.length =
      ((23 : Int) - 20).natAbs ∧
    (generateFallbackWeather envC1.rng "Nowhereland" 20 23).destination =
      truncAtComma "Nowhereland" ∧
    (generateFallbackWeather envC1.rng "Nowhereland" 20 23).country = "Unknown" :=
  C1_geocoding_failure_fallback envC1 "Nowhereland" 20 23 (Or.inl rfl)

/-- The destination field of a returned result, when one was returned. -/
def okDestination (x : Except Unit WeatherForecastResult) : Option String :=
  match x with
  | Except.ok r => some r.destination
  | Except.error _ => none

/-- C2 counterexample: geocoding resolves "Nowhereland" to the canonical
name "Springfield" and the first weather attempt throws — an exception
inside steps 1-4 — yet the tool answers with live data from the second
attempt, not with the fallback generator's output for the original
destination (their destination fields differ). -/
theorem C2_counterexample :
    envThrowThenLive.attempts.head? = some FetchResult.throws ∧
    okDestination (weatherForecastExecute envThrowThenLive "Nowhereland" 10 11) =
      some "Springfield" ∧
    (generateFallbackWeather envThrowThenLive.rng "Nowhereland" 10 11).destination =
      "Nowhereland" ∧
    weatherForecastExecute envThrowThenLive "Nowhereland" 10 11 ≠
      Except.ok (generateFallbackWeather envThrowThenLive.rng "Nowhereland" 10 11) := by
  refine ⟨rfl, rfl, by decide, ?_⟩
  intro hcontra
  have hdest := congrArg okDestination hcontra
  exact absurd hdest (by decide)

/-- C2 (amended): the tool never raises — every run returns Except.ok —
and an exception that escapes the try body (a geocoding fetch/json
throw) is caught and answered with the fallback generator's output for
the original destination. An exception inside an individual weather
attempt is instead swallowed by the per-attempt handler: the loop goes
on, so a later attempt can still yield live data, and when none does the
step-3 fallback uses the resolved name. The fallback generator itself is
total by construction. -/
theorem C2_never_raises (env : WeatherEnv) (destination : String) (s e : Int) :
    (weatherForecastExecute env destination s e).isOk = true ∧
    (∀ err : Unit, weatherTryBody env destination s e = Except.error err →
      weatherForecastExecute env destination s e =
        Except.ok (generateFallbackWeather env.rng destination s e)) := by
  constructor
  · unfold weatherForecastExecute
    cases weatherTryBody env destination s e <;> rfl
  · intro err herr
    unfold weatherForecastExecute
    rw [herr]

/-- C2 witness: a thrown geocoding call is caught and answered with the
fallback output for the original destination. -/
theorem C2_never_raises_witness :
    (weatherForecastExecute envGeoThrows "Tokyo, Japan" 0 7).isOk = true ∧
    weatherForecastExecute envGeoThrows "Tokyo, Japan" 0 7 =
      Except.ok (generateFallbackWeather envGeoThrows.rng "Tokyo, Japan" 0 7) :=
  ⟨(C2_never_raises envGeoThrows "Tokyo, Japan" 0 7).1,
   (C2_never_raises envGeoThrows "Tokyo, Japan" 0 7).2 () rfl⟩

/-- C5 counterexample: weathercode[0] and precipitation[0] are present
and equal 0 — a valid Clear sky code and a valid 0 percent chance — yet
the mapped entry carries the defaults weatherCode 1 and precipitation 20:
the JS || treats the present falsy 0 like a missing value. -/
theorem C5_counterexample :
    dbZeroCode.weathercode = some [(0 : ℚ)] ∧
    dbZeroCode.precipitation_probability_max = some [(0 : ℚ)] ∧
    (weatherForecastExecute envZeroCode "Oslo" 0 1).map
        (fun r => r.forecast.map (fun f => f.weatherCode)) = Except.ok [1] ∧
    (weatherForecastExecute envZeroCode "Oslo" 0 1).map
        (fun r => r.forecast.map (fun f => f.precipitationChance)) = Except.ok [20] ∧
    (1 : ℚ) ≠ 0 ∧ (20 : ℚ) ≠ 0 := by
  refine ⟨rfl, rfl, rfl, rfl, by decide, by decide⟩

/-- C5 (amended): for an accepted daily block, forecast entry i uses each
response value when it is present and nonzero; the defaults — code 1,
temperatures 25/18, precipitation 20 — apply exactly when the value is
missing or equal to 0, because the JS || default also replaces a falsy
present 0. -/
theorem C5_forecast_value_defaults (env : WeatherEnv) (destination : String) (s e : Int)
    (gb : GeocodingBody) (entry : GeoEntry) (rest : List GeoEntry)
    (wb : WeatherBody) (db : DailyBlock) (times : List Int) (i : ℕ) (date : Int)
    (hg : env.geocoding = FetchResult.ok gb)
    (hr : gb.results = some (entry :: rest))
    (ha : firstAccepted env.attempts = some wb)
    (hd : wb.daily = some db)
    (ht : db.time = some times)
    (hi : times.get? i = some date) :
    (weatherForecastExecute env destination s e).map (fun r => r.forecast.get? i) =
      Except.ok (some
        { date := date
          condition := getWeatherCondition
            (match idxVal db.weathercode i with
             | some v => if v = 0 then 1 else v
             | none => 1)
          maxTemp := jsRound
            (match idxVal db.temperature_2m_max i with
             | some v => if v = 0 then 25 else v
             | none => 25)
          minTemp := jsRound
            (match idxVal db.temperature_2m_min i with
             | some v => if v = 0 then 18 else v
             | none => 18)
          precipitationChance :=
            (match idxVal db.precipitation_probability_max i with
             | some v => if v = 0 then 20 else v
             | none => 20)
          weatherCode :=
            (match idxVal db.weathercode i with
             | some v => if v = 0 then 1 else v
             | none => 1) }) := by
  have hi2 : times[i]? = some date := by simpa using hi
  simp only [weatherForecastExecute, weatherTryBody, hg, hr, ha, hd, ht, processDaily,
    Except.map]
  simp [List.getElem?_map, List.getElem?_enum, hi2, buildForecastEntry, jsOrQ]

/-- C5 witness: the all-zero daily block of the counterexample
environment, instantiated at index 0, follows the amended semantics. -/
theorem C5_forecast_value_defaults_witness :
    (weatherForecastExecute envZeroCode "Oslo" 0 1).map (fun r => r.forecast.get? 0) =
      Except.ok (some
        { date := 100
          condition := getWeatherCondition
            (match idxVal dbZeroCode.weathercode 0 with
             | some v => if v = 0 then 1 else v
             | none => 1)
          maxTemp := jsRound
            (match idxVal dbZeroCode.temperature_2m_max 0 with
             | some v => if v = 0 then 25 else v
             | none => 25)
          minTemp := jsRound
            (match idxVal dbZeroCode.temperature_2m_min 0 with
             | some v => if v = 0 then 18 else v
             | none => 18)
          precipitationChance :=
            (match idxVal dbZeroCode.precipitation_probability_max 0 with
             | some v => if v = 0 then 20 else v
             | none => 20)
          weatherCode :=
            (match idxVal dbZeroCode.weathercode 0 with
             | some v => if v = 0 then 1 else v
             | none => 1) }) :=
  C5_forecast_value_defaults envZeroCode "Oslo" 0 1
    { results := some [geoEntryOslo] } geoEntryOslo []
    { daily := some dbZeroCode, current := false } dbZeroCode [100] 0 100
    rfl rfl rfl rfl rfl rfl

/-- C10: when the accepted weather body carries daily.time = [] the tool
does not fall back — it returns a result whose forecast is empty whatever
the requested range, under the resolved name — while daily.time absent or
not an array (modelled as none) routes to the fallback generator with the
resolved name. -/
theorem C10_empty_daily_time (env : WeatherEnv) (destination : String) (s e : Int)
    (gb : GeocodingBody) (entry : GeoEntry) (rest : List GeoEntry)
    (wb : WeatherBody) (db : DailyBlock)
    (hg : env.geocoding = FetchResult.ok gb)
    (hr : gb.results = some (entry :: rest))
    (ha : firstAccepted env.attempts = some wb)
    (hd : wb.daily = some db) :
    (db.time = some [] →
      (weatherForecastExecute env destination s e).map (fun r => r.forecast) =
        Except.ok [] ∧
      (weatherForecastExecute env destination s e).map (fun r => r.destination) =
        Except.ok entry.name) ∧
    (db.time = none →
      weatherForecastExecute env destination s e =
        Except.ok (generateFallbackWeather env.rng entry.name s e)) := by
  constructor
  · intro ht
    constructor <;>
      simp [weatherForecastExecute, weatherTryBody, hg, hr, ha, hd, ht, processDaily,
        Except.map]
  · intro ht
    simp [weatherForecastExecute, weatherTryBody, hg, hr, ha, hd, ht]

/-- C10 witness: an accepted body with an empty daily.time over a six-day
request yields an empty forecast under the resolved name "Kyoto". -/
theorem C10_empty_daily_time_witness :
    (weatherForecastExecute envEmptyTime "Kyoto, Japan" 3 9).map (fun r => r.forecast) =
      Except.ok [] ∧
    (weatherForecastExecute envEmptyTime "Kyoto, Japan" 3 9).map (fun r => r.destination) =
      Except.ok geoEntryKyoto.name :=
  (C10_empty_daily_time envEmptyTime "Kyoto, Japan" 3 9
    { results := some [geoEntryKyoto] } geoEntryKyoto []
    { daily := some dbEmptyTime, current := false } dbEmptyTime
    rfl rfl rfl rfl).1 rfl

/-- Rounding a rational that is exactly an integer changes nothing. -/
theorem jsRound_eq_intCast (q : ℚ) (n : ℤ) (h : q = ((n : ℤ) : ℚ)) : jsRound q = n := by
  rw [h]; exact jsRound_intCast n

/-- C3: the mid-range scenario — 3500 over 7 days — yields dailyBudget
500 and category totals 1400 / 875 / 525 / 525 / 175; in general every
category total is round(totalBudget x pct / 100), every category daily is
round((totalBudget / duration) x pct / 100) for the style's table, and
each style's five percentages sum to exactly 100. -/
theorem C3_budget_breakdown :
    (∀ (t : ℚ) (dest : String),
     (budgetCalculatorExecute 3500 7 t TravelStyle.midRange dest).dailyBudget = 500 ∧
     (budgetCalculatorExecute 3500 7 t TravelStyle.midRange dest).breakdown.accommodation.total = 1400 ∧
     (budgetCalculatorExecute 3500 7 t TravelStyle.midRange dest).breakdown.food.total = 875 ∧
     (budgetCalculatorExecute 3500 7 t TravelStyle.midRange dest).breakdown.transport.total = 525 ∧
     (budgetCalculatorExecute 3500 7 t TravelStyle.midRange dest).breakdown.activities.total = 525 ∧
     (budgetCalculatorExecute 3500 7 t TravelStyle.midRange dest).breakdown.miscellaneous.total = 175) ∧
    (∀ style : TravelStyle,
      (allocationFor style).accommodation + (allocationFor style).food +
        (allocationFor style).transport + (allocationFor style).activities +
        (allocationFor style).misc = 100) ∧
    (∀ (b d t : ℚ) (style : TravelStyle) (dest : String),
      (budgetCalculatorExecute b d t style dest).breakdown.accommodation.total =
        jsRound (b * (allocationFor style).accommodation / 100) ∧
      (budgetCalculatorExecute b d t style dest).breakdown.food.total =
        jsRound (b * (allocationFor style).food / 100) ∧
      (budgetCalculatorExecute b d t style dest).breakdown.transport.total =
        jsRound (b * (allocationFor style).transport / 100) ∧
      (budgetCalculatorExecute b d t style dest).breakdown.activities.total =
        jsRound (b * (allocationFor style).activities / 100) ∧
      (budgetCalculatorExecute b d t style dest).breakdown.miscellaneous.total =
        jsRound (b * (allocationFor style).misc / 100) ∧
      (budgetCalculatorExecute b d t style dest).breakdown.accommodation.daily =
        jsRound (b / d * (allocationFor style).accommodation / 100) ∧
      (budgetCalculatorExecute b d t style dest).breakdown.food.daily =
        jsRound (b / d * (allocationFor style).food / 100) ∧
      (budgetCalculatorExecute b d t style dest).breakdown.transport.daily =
        jsRound (b / d * (allocationFor style).transport / 100) ∧
      (budgetCalculatorExecute b d t style dest).breakdown.activities.daily =
        jsRound (b / d * (allocationFor style).activities / 100) ∧
      (budgetCalculatorExecute b d t style dest).breakdown.miscellaneous.daily =
        jsRound (b / d * (allocationFor style).misc / 100)) := by
  refine ⟨?_, ?_, ?_⟩
  · intro t dest
    refine ⟨?_, ?_, ?_, ?_, ?_, ?_⟩
    · exact jsRound_eq_intCast _ 500 (by norm_num)
    · exact jsRound_eq_intCast _ 1400 (by norm_num [allocationFor])
    · exact jsRound_eq_intCast _ 875 (by norm_num [allocationFor])
    · exact jsRound_eq_intCast _ 525 (by norm_num [allocationFor])
    · exact jsRound_eq_intCast _ 525 (by norm_num [allocationFor])
    · exact jsRound_eq_intCast _ 175 (by norm_num [allocationFor])
  · intro style
    cases style <;> norm_num [allocationFor]
  · intro b d t style dest
    exact ⟨rfl, rfl, rfl, rfl, rfl, rfl, rfl, rfl, rfl, rfl⟩

/-- C4 counterexample: for totalBudget 100 over 3 days the returned
dailyBudget field is 33, but 100/3 is not 33 — the field is rounded. -/
theorem C4_counterexample :
    (0 : ℚ) < 100 ∧ (0 : ℚ) < 3 ∧
    (budgetCalculatorExecute 100 3 1 TravelStyle.midRange "Lima").dailyBudget = 33 ∧
    (33 : ℚ) ≠ 100 / 3 := by
  refine ⟨by decide, by decide, ?_, by norm_num⟩
  show jsRound ((100 : ℚ) / 3) = 33
  unfold jsRound
  rw [Int.floor_eq_iff]
  constructor <;> norm_num

/-- C4 (amended): the output's dailyBudget field is Math.round of
totalBudget / duration; the unrounded quotient is only used internally
(for the per-category dailies and the recommendation thresholds). -/
theorem C4_daily_budget_is_rounded (b d t : ℚ) (style : TravelStyle) (dest : String) :
    (budgetCalculatorExecute b d t style dest).dailyBudget = jsRound (b / d) := rfl

/-- C6: the recommendations list has exactly the five base entries when
50 <= dailyBudget <= 200 (both bounds included), and exactly seven —
the two extra suggestions appended — when dailyBudget < 50 or
dailyBudget > 200, where dailyBudget is totalBudget / duration. -/
theorem C6_recommendation_bands (b d t : ℚ) (style : TravelStyle) (destination : String)
    (hd : 0 < d) :
    ((50 ≤ b / d ∧ b / d ≤ 200) →
      (budgetCalculatorExecute b d t style destination).recommendations.length = 5) ∧
    (b / d < 50 →
      (budgetCalculatorExecute b d t style destination).recommendations.length = 7) ∧
    (200 < b / d →
      (budgetCalculatorExecute b d t style destination).recommendations.length = 7) := by
  refine ⟨?_, ?_, ?_⟩
  · rintro ⟨h1, h2⟩
    simp [budgetCalculatorExecute, not_lt.mpr h1, not_lt.mpr h2]
  · intro h
    simp [budgetCalculatorExecute, h]
  · intro h
    have h5 : ¬ (b / d < 50) := by linarith
    simp [budgetCalculatorExecute, h5, h]

/-- In-band quotient for the C6 witness. -/
theorem ratBand500div5 : (50 : ℚ) ≤ 500 / 5 ∧ (500 : ℚ) / 5 ≤ 200 := by norm_num

/-- C6 witness: 500 over 5 days sits inside the band, so exactly the five
base recommendations are produced. -/
theorem C6_recommendation_bands_witness :
    (budgetCalculatorExecute 500 5 2 TravelStyle.budget "Lagos").recommendations.length = 5 :=
  (C6_recommendation_bands 500 5 2 TravelStyle.budget "Lagos" (by decide)).1 ratBand500div5

/-- C7: over the fixed 8-entry catalog, the tool keeps exactly the
entries matched by the interest-substring-or-cost predicate; when they
reach min(2 x duration, 8) the list is exactly the matches, otherwise
unmatched catalog entries are appended in catalog order and the list
length lands exactly on the minimum — so the length is always at least
min(2 x duration, 8). -/
theorem C7_attractions_minimum (destination : String) (interests : List String)
    (duration : ℕ) (budget : ℚ) :
    allAttractions.length = 8 ∧
    minAttractionsFor duration ≤
      (attractionsFinderExecute destination interests duration budget).attractions.length ∧
    (minAttractionsFor duration ≤ (matchedAttractions interests budget).length →
      (attractionsFinderExecute destination interests duration budget).attractions =
        matchedAttractions interests budget) ∧
    ((matchedAttractions interests budget).length < minAttractionsFor duration →
      (attractionsFinderExecute destination interests duration budget).attractions =
        matchedAttractions interests budget ++
          (allAttractions.filter
              (fun a => !(decide (a ∈ matchedAttractions interests budget)))).take
            (minAttractionsFor duration - (matchedAttractions interests budget).length) ∧
      (attractionsFinderExecute destination interests duration budget).attractions.length =
        minAttractionsFor duration) := by
  have hcomp := length_filter_comp allAttractions (attractionMatches interests budget)
  have hm8 : allAttractions.length = 8 := rfl
  have hmin8 : minAttractionsFor duration ≤ allAttractions.length := Nat.min_le_right _ _
  have hlow : ∀ h : ¬ minAttractionsFor duration ≤ (matchedAttractions interests budget).length,
      (finalAttractions interests duration budget).length = minAttractionsFor duration := by
    intro h
    rw [finalAttractions, if_neg h, List.length_append, List.length_take,
      filter_not_mem_matched]
    have hm : (matchedAttractions interests budget).length +
        (allAttractions.filter (fun a => !(attractionMatches interests budget a))).length =
        allAttractions.length := by
      simpa [matchedAttractions] using hcomp
    omega
  refine ⟨hm8, ?_, ?_, ?_⟩
  · show minAttractionsFor duration ≤ (finalAttractions interests duration budget).length
    by_cases hc : minAttractionsFor duration ≤ (matchedAttractions interests budget).length
    · rw [finalAttractions, if_pos hc]
      exact hc
    · rw [hlow hc]
  · intro hc
    show finalAttractions interests duration budget = matchedAttractions interests budget
    rw [finalAttractions, if_pos hc]
  · intro hc
    have hc2 : ¬ minAttractionsFor duration ≤ (matchedAttractions interests budget).length := by
      omega
    constructor
    · show finalAttractions interests duration budget = _
      rw [finalAttractions, if_neg hc2]
    · exact hlow hc2

/-- C7 witness: the empty interest tag is a substring of every category,
so all 8 entries match; with duration 10 the minimum is min(20, 8) = 8
and the final list is exactly the 8 matches. -/
theorem C7_attractions_minimum_witness :
    allAttractions.length = 8 ∧
    minAttractionsFor 10 ≤
      (attractionsFinderExecute "Rome, Italy" [""] 10 0).attractions.length ∧
    (attractionsFinderExecute "Rome, Italy" [""] 10 0).attractions =
      matchedAttractions [""] 0 :=
  ⟨(C7_attractions_minimum "Rome, Italy" [""] 10 0).1,
   (C7_attractions_minimum "Rome, Italy" [""] 10 0).2.1,
   (C7_attractions_minimum "Rome, Italy" [""] 10 0).2.2.1 (by decide)⟩

end TravelPlanner
